import Mathlib

/-!
Verification of the Someday reconciler of `things3_mcp` (`src/things3_mcp/someday.py`).

The Python module consists of three functions:

* `get_someday_context()` — fetches the Someday projects and their headings
  from the external `things` library and builds the context
  `(someday_project_ids, heading_to_project)`;
* `_is_in_someday_project(todo, someday_project_ids, heading_to_project)` —
  decides whether a todo belongs (directly or via a heading) to a Someday
  project;
* `filter_someday_tasks(todos, ctx)` and `augment_someday_tasks(someday_todos, ctx)` —
  the two reconciliation operations.  Note that `augment_someday_tasks`
  calls `things.anytime()` itself (line 84 of the source).

The external `things` library is modelled by a `World` value recording the
answers the library would give; each Python call site `x or []` is modelled
by `Option.getD []`, matching Python's treatment of a `None` result.

A Python todo dict is modelled by `Task`: `todo["uuid"]` is the `uuid`
field, and `todo.get("project")` / `todo.get("heading")` are `Option String`
fields where `none` covers both an absent key and an explicit `None` value.
Python truthiness of an optional string (`None` and `""` are falsy) is
`strTruthy`.
-/

namespace Things3

/-- A Python todo dict, restricted to the keys `someday.py` reads.
`none` models both a missing key and an explicit `None` value. -/
structure Task where
  uuid : String
  project : Option String
  heading : Option String
  deriving DecidableEq, Repr

/-- A project dict as returned by `things.projects`; only `uuid` is read. -/
structure Project where
  uuid : String
  deriving DecidableEq, Repr

/-- A heading dict as returned by `things.tasks(type="heading", ...)`;
only `uuid` is read. -/
structure Heading where
  uuid : String
  deriving DecidableEq, Repr

/-- The state of the external `things` library, as observed through the
three call sites in `someday.py`: `things.projects(start="Someday")`,
`things.tasks(type="heading", project=proj_id)` and `things.anytime()`.
`none` models the library returning `None` (handled by `or []` in Python). -/
structure World where
  projects_someday : Option (List Project)
  headings : String → Option (List Heading)
  anytime : Option (List Task)

/-- A reconciliation context `(someday_project_ids, heading_to_project)`.
The Python `set[str]` is modelled as a duplicate-free `List String` (only
membership and emptiness are ever used); the Python `dict[str, str]` is an
association list in key-insertion order. -/
abbrev Ctx := List String × List (String × String)

/-- Python truthiness of an optional string: `None` and `""` are falsy. -/
def strTruthy : Option String → Bool
  | none => false
  | some s => s != ""

/-- Python `k in d` for the association-list model of a dict. -/
def dictHasKey (m : List (String × String)) (k : String) : Bool :=
  m.any (fun p => p.1 == k)

/-- Python `d[k] = v` on the association-list model of a dict: update the
value in place when the key exists, otherwise append the new pair
(insertion order is preserved, as in a Python dict). -/
def dictInsert (m : List (String × String)) (k v : String) : List (String × String) :=
  if dictHasKey m k then m.map (fun p => if p.1 == k then (k, v) else p)
  else m ++ [(k, v)]

/-- Embedding of `get_someday_context` (someday.py lines 17–33).
`someday_project_ids = {p["uuid"] for p in someday_projects}` is the
deduplicated uuid list; the nested loops over the set and each project's
headings build `heading_to_project` by dict insertion. -/
def get_someday_context (w : World) : Ctx :=
  let someday_projects := w.projects_someday.getD []
  let someday_project_ids := (someday_projects.map Project.uuid).dedup
  let heading_to_project :=
    someday_project_ids.foldl
      (fun m proj_id =>
        ((w.headings proj_id).getD []).foldl
          (fun m h => dictInsert m h.uuid proj_id) m)
      []
  (someday_project_ids, heading_to_project)

/-- Embedding of `_is_in_someday_project` (someday.py lines 36–50):

    project_uuid = todo.get("project")
    if project_uuid and project_uuid in someday_project_ids: return True
    heading_uuid = todo.get("heading")
    if heading_uuid and not project_uuid and heading_uuid in heading_to_project: return True
    return False

When `project_uuid` (resp. `heading_uuid`) is truthy it is some non-empty
string, so `Option.getD ""` recovers exactly the string Python tests for
membership; the short-circuit `and` is the boolean `&&`. -/
def is_in_someday_project (todo : Task) (someday_project_ids : List String)
    (heading_to_project : List (String × String)) : Bool :=
  if strTruthy todo.project && someday_project_ids.contains (todo.project.getD "") then
    true
  else if strTruthy todo.heading && !strTruthy todo.project &&
      dictHasKey heading_to_project (todo.heading.getD "") then
    true
  else
    false

/-- Embedding of `filter_someday_tasks` (someday.py lines 53–66).  The
Python default `ctx=None` triggers a context fetch, hence the `Option Ctx`
parameter and the `World` argument. -/
def filter_someday_tasks (w : World) (todos : List Task) (ctx : Option Ctx) : List Task :=
  let c := ctx.getD (get_someday_context w)
  if c.1.isEmpty then todos
  else todos.filter (fun t => !is_in_someday_project t c.1 c.2)

/-- Embedding of `augment_someday_tasks` (someday.py lines 69–92).  The
function fetches `things.anytime()` itself; `existing_uuids` is computed
once from the input before the loop, and the Python loop appends to
`someday_todos` in place, which on lists amounts to appending the
candidates that pass the test, in their order in `anytime_todos`. -/
def augment_someday_tasks (w : World) (someday_todos : List Task) (ctx : Option Ctx) : List Task :=
  let c := ctx.getD (get_someday_context w)
  if c.1.isEmpty then someday_todos
  else
    let existing_uuids := someday_todos.map Task.uuid
    let anytime_todos := w.anytime.getD []
    someday_todos ++
      anytime_todos.filter
        (fun todo => !existing_uuids.contains todo.uuid && is_in_someday_project todo c.1 c.2)

/-! Concrete sanity checks: the spec's Scenarios A, B, C and E, and the
context construction of the repository's own unit test. -/

-- Scenario A
example :
    filter_someday_tasks ⟨none, fun _ => none, none⟩
      [⟨"t1", some "P1", none⟩, ⟨"t2", some "P2", none⟩, ⟨"t3", none, none⟩]
      (some (["P1"], [])) =
      [⟨"t2", some "P2", none⟩, ⟨"t3", none, none⟩] := by decide

-- Scenario B
example :
    filter_someday_tasks ⟨none, fun _ => none, none⟩
      [⟨"t1", none, some "H1"⟩, ⟨"t2", none, some "H2"⟩]
      (some (["P1"], [("H1", "P1")])) =
      [⟨"t2", none, some "H2"⟩] := by decide

-- Scenario C
example :
    augment_someday_tasks
      ⟨none, fun _ => none, some [⟨"a1", some "P1", none⟩, ⟨"a2", some "P2", none⟩]⟩
      [⟨"s1", none, none⟩] (some (["P1"], [])) =
      [⟨"s1", none, none⟩, ⟨"a1", some "P1", none⟩] := by decide

-- Scenario E
example :
    is_in_someday_project ⟨"t1", some "P2", some "H1"⟩ ["P1"] [("H1", "P1")] = false := by
  decide

-- context building as in the unit test
example :
    get_someday_context
      ⟨some [⟨"sp1"⟩, ⟨"sp2"⟩],
       fun p => if p = "sp1" then some [⟨"h1"⟩]
                else if p = "sp2" then some [⟨"h2"⟩, ⟨"h3"⟩] else none,
       none⟩ =
      (["sp1", "sp2"], [("h1", "sp1"), ("h2", "sp2"), ("h3", "sp2")]) := by decide

/-! ## Helper lemmas -/

/-- Truthiness of an optional string unpacked to a proposition. -/
lemma strTruthy_iff (o : Option String) : strTruthy o = true ↔ ∃ s, o = some s ∧ s ≠ "" := by
  cases o <;> simp [strTruthy]

/-- Key membership in the dict model unpacked to a proposition. -/
lemma dictHasKey_iff (m : List (String × String)) (k : String) :
    dictHasKey m k = true ↔ ∃ v, (k, v) ∈ m := by
  simp only [dictHasKey, List.any_eq_true, beq_iff_eq]
  constructor
  · rintro ⟨⟨a, b⟩, hm, rfl⟩
    exact ⟨b, hm⟩
  · rintro ⟨v, hv⟩
    exact ⟨(k, v), hv, rfl⟩

/-- The two-branch body of `_is_in_someday_project` as a boolean disjunction. -/
lemma is_in_someday_project_eq (t : Task) (ids : List String) (m : List (String × String)) :
    is_in_someday_project t ids m =
      (strTruthy t.project && ids.contains (t.project.getD "") ||
       (strTruthy t.heading && !strTruthy t.project && dictHasKey m (t.heading.getD ""))) := by
  unfold is_in_someday_project
  rcases strTruthy t.project && ids.contains (t.project.getD "") with _ | _ <;>
    rcases strTruthy t.heading && !strTruthy t.project && dictHasKey m (t.heading.getD "") with
      _ | _ <;> simp

/-- `filter_someday_tasks` with an explicit non-empty context is a `List.filter`. -/
lemma filter_someday_tasks_nonempty (w : World) (T : List Task) (c : Ctx) (h : c.1 ≠ []) :
    filter_someday_tasks w T (some c) =
      T.filter (fun t => !is_in_someday_project t c.1 c.2) := by
  simp [filter_someday_tasks, List.isEmpty_iff, h]

/-- `augment_someday_tasks` with an explicit non-empty context appends the
filtered Anytime fetch to the input. -/
lemma augment_someday_tasks_nonempty (w : World) (T : List Task) (c : Ctx) (h : c.1 ≠ []) :
    augment_someday_tasks w T (some c) =
      T ++ (w.anytime.getD []).filter
        (fun todo => !(T.map Task.uuid).contains todo.uuid &&
          is_in_someday_project todo c.1 c.2) := by
  simp [augment_someday_tasks, List.isEmpty_iff, h]

/-- A pair of the dict after an insertion is either an original pair or
carries the inserted value. -/
lemma mem_dictInsert (m : List (String × String)) (k v : String)
    (kv : String × String) (h : kv ∈ dictInsert m k v) : kv ∈ m ∨ kv.2 = v := by
  unfold dictInsert at h
  split at h
  · rw [List.mem_map] at h
    obtain ⟨p, hp, he⟩ := h
    split at he
    · right
      rw [← he]
    · left
      rw [← he]
      exact hp
  · rw [List.mem_append] at h
    rcases h with h | h
    · exact Or.inl h
    · right
      rw [List.mem_singleton] at h
      rw [h]

/-- The inner heading loop of `get_someday_context` only inserts values
equal to the project id being processed. -/
lemma foldl_headings_snd_mem (S : List String) (pid : String) (hpid : pid ∈ S) :
    ∀ (hs : List Heading) (m : List (String × String)),
      (∀ kv ∈ m, kv.2 ∈ S) →
      ∀ kv ∈ hs.foldl (fun m h => dictInsert m h.uuid pid) m, kv.2 ∈ S := by
  intro hs
  induction hs with
  | nil =>
    intro m hm kv hkv
    exact hm kv hkv
  | cons a tl ih =>
    intro m hm kv hkv
    refine ih (dictInsert m a.uuid pid) ?_ kv hkv
    intro kv' hkv'
    rcases mem_dictInsert m a.uuid pid kv' hkv' with h' | h'
    · exact hm kv' h'
    · rw [h']
      exact hpid

/-- The outer project loop of `get_someday_context` keeps every inserted
value inside the set `S` containing all processed project ids. -/
lemma foldl_projects_snd_mem (S : List String) (w : World) :
    ∀ (ids : List String), (∀ pid ∈ ids, pid ∈ S) →
      ∀ (m : List (String × String)), (∀ kv ∈ m, kv.2 ∈ S) →
      ∀ kv ∈ ids.foldl
          (fun m proj_id =>
            ((w.headings proj_id).getD []).foldl
              (fun m h => dictInsert m h.uuid proj_id) m) m,
        kv.2 ∈ S := by
  intro ids
  induction ids with
  | nil =>
    intro _ m hm kv hkv
    exact hm kv hkv
  | cons a tl ih =>
    intro hids m hm kv hkv
    refine ih (fun pid hpid => hids pid (List.mem_cons_of_mem a hpid)) _ ?_ kv hkv
    exact foldl_headings_snd_mem S a (hids a (List.mem_cons_self a tl)) _ m hm

/-- The first component of the built context, unfolded. -/
lemma get_someday_context_fst (w : World) :
    (get_someday_context w).1 = ((w.projects_someday.getD []).map Project.uuid).dedup := rfl

/-- The second component of the built context, unfolded. -/
lemma get_someday_context_snd (w : World) :
    (get_someday_context w).2 =
      (((w.projects_someday.getD []).map Project.uuid).dedup).foldl
        (fun m proj_id =>
          ((w.headings proj_id).getD []).foldl
            (fun m h => dictInsert m h.uuid proj_id) m)
        [] := rfl

/-! ## Claim theorems -/

/-- C2: `_is_in_someday_project` returns true exactly when either (1) the
task has a (truthy) project identifier that is a member of
`someday_project_ids`, or (2) the task has a (truthy) heading identifier,
has no project identifier, and that heading identifier is a key of
`heading_to_project`; otherwise it returns false.  In particular the
project reference takes precedence: the heading is only consulted when the
project is absent (Scenario E is the concrete instance checked above). -/
theorem c2_is_in_someday_project_characterization (t : Task) (ids : List String)
    (m : List (String × String)) :
    is_in_someday_project t ids m = true ↔
      ((∃ p, t.project = some p ∧ p ≠ "" ∧ p ∈ ids) ∨
       ((∃ h, t.heading = some h ∧ h ≠ "" ∧ ∃ v, (h, v) ∈ m) ∧
        ¬ ∃ p, t.project = some p ∧ p ≠ "")) := by
  rw [is_in_someday_project_eq]
  rcases t with ⟨u, _ | p, _ | h⟩ <;> simp [strTruthy, dictHasKey_iff]
  by_cases hp : p = "" <;> simp [hp]

/-- C3: with a non-empty `someday_project_ids`, `filter_someday_tasks` is
exactly the subsequence of the input obtained by removing the tasks for
which `_is_in_someday_project` holds, retained tasks keeping their
relative order (it is a sublist of the input). -/
theorem c3_filter_is_list_filter (w : World) (T : List Task) (c : Ctx) (h : c.1 ≠ []) :
    filter_someday_tasks w T (some c) =
        T.filter (fun t => !is_in_someday_project t c.1 c.2) ∧
      (filter_someday_tasks w T (some c)).Sublist T := by
  refine ⟨filter_someday_tasks_nonempty w T c h, ?_⟩
  rw [filter_someday_tasks_nonempty w T c h]
  exact T.filter_sublist

/-- Witness for C3 at the data of Scenario A. -/
theorem c3_witness :
    ((["P1"] : List String) ≠ []) ∧
      (filter_someday_tasks ⟨none, fun _ => none, none⟩
          [⟨"t1", some "P1", none⟩, ⟨"t2", some "P2", none⟩] (some (["P1"], [])) =
          ([⟨"t1", some "P1", none⟩, ⟨"t2", some "P2", none⟩].filter
            (fun t => !is_in_someday_project t ["P1"] [])) ∧
       (filter_someday_tasks ⟨none, fun _ => none, none⟩
          [⟨"t1", some "P1", none⟩, ⟨"t2", some "P2", none⟩] (some (["P1"], []))).Sublist
         [⟨"t1", some "P1", none⟩, ⟨"t2", some "P2", none⟩]) :=
  ⟨by decide, c3_filter_is_list_filter _ _ _ (by decide)⟩

/-- C5: with an empty `someday_project_ids`, both operations are the
identity, whatever `heading_to_project` contains. -/
theorem c5_empty_context_identity (w : World) (T : List Task)
    (m : List (String × String)) :
    filter_someday_tasks w T (some ([], m)) = T ∧
      augment_someday_tasks w T (some ([], m)) = T :=
  ⟨rfl, rfl⟩

/-- C8: `filter_someday_tasks` is idempotent for every explicit context. -/
theorem c8_filter_idempotent (w : World) (T : List Task) (c : Ctx) :
    filter_someday_tasks w (filter_someday_tasks w T (some c)) (some c) =
      filter_someday_tasks w T (some c) := by
  by_cases h : c.1 = []
  · simp [filter_someday_tasks, h]
  · have e := fun (L : List Task) => filter_someday_tasks_nonempty w L c h
    rw [e, e, List.filter_filter]
    simp

/-- C4: with a non-empty `someday_project_ids`, `augment_someday_tasks`
returns the input (entries keeping their original positions) followed by
exactly those fetched Anytime tasks whose uuid is not already present in
the input and which `_is_in_someday_project` accepts, in encounter order. -/
theorem c4_augment_appends_candidates (w : World) (T : List Task) (c : Ctx)
    (h : c.1 ≠ []) :
    (augment_someday_tasks w T (some c)).take T.length = T ∧
      (augment_someday_tasks w T (some c)).drop T.length =
        (w.anytime.getD []).filter
          (fun todo => !(T.map Task.uuid).contains todo.uuid &&
            is_in_someday_project todo c.1 c.2) := by
  rw [augment_someday_tasks_nonempty w T c h]
  exact ⟨List.take_left T _, List.drop_left T _⟩

/-- Witness for C4 at the data of Scenario C. -/
theorem c4_witness :
    ((["P1"] : List String) ≠ []) ∧
      ((augment_someday_tasks
          ⟨none, fun _ => none, some [⟨"a1", some "P1", none⟩, ⟨"a2", some "P2", none⟩]⟩
          [⟨"s1", none, none⟩] (some (["P1"], []))).take 1 = [⟨"s1", none, none⟩] ∧
       (augment_someday_tasks
          ⟨none, fun _ => none, some [⟨"a1", some "P1", none⟩, ⟨"a2", some "P2", none⟩]⟩
          [⟨"s1", none, none⟩] (some (["P1"], []))).drop 1 =
         ([⟨"a1", some "P1", none⟩, ⟨"a2", some "P2", none⟩].filter
           (fun todo => !([⟨"s1", none, none⟩].map Task.uuid).contains todo.uuid &&
             is_in_someday_project todo ["P1"] []))) :=
  ⟨by decide,
   c4_augment_appends_candidates
     ⟨none, fun _ => none, some [⟨"a1", some "P1", none⟩, ⟨"a2", some "P2", none⟩]⟩
     [⟨"s1", none, none⟩] (["P1"], []) (by decide)⟩

/-- C6: a task already present in the input by uuid is never appended by
`augment_someday_tasks`: its uuid count is unchanged, and the input is
left as an unchanged prefix of the result. -/
theorem c6_no_duplicate_of_existing (w : World) (T : List Task) (c : Ctx)
    (u : String) (hu : u ∈ T.map Task.uuid) :
    ((augment_someday_tasks w T (some c)).map Task.uuid).count u =
        (T.map Task.uuid).count u ∧
      (augment_someday_tasks w T (some c)).take T.length = T := by
  by_cases h : c.1 = []
  · have he : augment_someday_tasks w T (some c) = T := by
      simp [augment_someday_tasks, h]
    rw [he]
    exact ⟨rfl, List.take_length T⟩
  · rw [augment_someday_tasks_nonempty w T c h]
    refine ⟨?_, List.take_left T _⟩
    rw [List.map_append, List.count_append]
    have hz :
        (((w.anytime.getD []).filter
            (fun todo => !(T.map Task.uuid).contains todo.uuid &&
              is_in_someday_project todo c.1 c.2)).map Task.uuid).count u = 0 := by
      apply List.count_eq_zero.mpr
      intro hmem
      rw [List.mem_map] at hmem
      obtain ⟨t, ht, rfl⟩ := hmem
      rw [List.mem_filter] at ht
      have hpred := ht.2
      simp only [Bool.and_eq_true, Bool.not_eq_true'] at hpred
      have : t.uuid ∈ T.map Task.uuid := hu
      simp [this] at hpred
    rw [hz, Nat.add_zero]

/-- Witness for C6: the deduplication unit test's data (uuid `dup` both in
the input and in the Anytime fetch). -/
theorem c6_witness :
    ("dup" ∈ ([⟨"dup", some "sp", none⟩] : List Task).map Task.uuid) ∧
      (((augment_someday_tasks ⟨none, fun _ => none, some [⟨"dup", some "sp", none⟩]⟩
            [⟨"dup", some "sp", none⟩] (some (["sp"], []))).map Task.uuid).count "dup" =
          (([⟨"dup", some "sp", none⟩] : List Task).map Task.uuid).count "dup" ∧
       (augment_someday_tasks ⟨none, fun _ => none, some [⟨"dup", some "sp", none⟩]⟩
            [⟨"dup", some "sp", none⟩] (some (["sp"], []))).take 1 =
          [⟨"dup", some "sp", none⟩]) :=
  ⟨by decide,
   c6_no_duplicate_of_existing ⟨none, fun _ => none, some [⟨"dup", some "sp", none⟩]⟩
     [⟨"dup", some "sp", none⟩] (["sp"], []) "dup" (by decide)⟩

/-- C7 (implicit): `existing_uuids` is computed once before the loop, so two
fetched Anytime candidates sharing a uuid that is absent from the input,
both accepted by `_is_in_someday_project`, are both appended: the result
contains that uuid at least twice. -/
theorem c7_duplicate_candidates_both_appended (w : World) (T : List Task) (c : Ctx)
    (t1 t2 : Task) (hsub : [t1, t2].Sublist (w.anytime.getD []))
    (h12 : t1.uuid = t2.uuid) (hu : t1.uuid ∉ T.map Task.uuid)
    (hin1 : is_in_someday_project t1 c.1 c.2 = true)
    (hin2 : is_in_someday_project t2 c.1 c.2 = true) (h : c.1 ≠ []) :
    2 ≤ ((augment_someday_tasks w T (some c)).map Task.uuid).count t1.uuid := by
  rw [augment_someday_tasks_nonempty w T c h, List.map_append, List.count_append]
  have hc1 : (T.map Task.uuid).contains t1.uuid = false := by simpa using hu
  have hc2 : (T.map Task.uuid).contains t2.uuid = false := by rw [← h12]; exact hc1
  have hp1 : (!(T.map Task.uuid).contains t1.uuid &&
      is_in_someday_project t1 c.1 c.2) = true := by rw [hc1, hin1]; rfl
  have hp2 : (!(T.map Task.uuid).contains t2.uuid &&
      is_in_someday_project t2 c.1 c.2) = true := by rw [hc2, hin2]; rfl
  have hf :
      [t1, t2].filter
          (fun todo => !(T.map Task.uuid).contains todo.uuid &&
            is_in_someday_project todo c.1 c.2) = [t1, t2] := by
    simp only [List.filter_cons, hp1, hp2, if_true, List.filter_nil]
  have hsub2 :=
    ((hsub.filter
        (fun todo => !(T.map Task.uuid).contains todo.uuid &&
          is_in_someday_project todo c.1 c.2)).map Task.uuid).count_le t1.uuid
  rw [hf] at hsub2
  have h2 : (([t1, t2].map Task.uuid).count t1.uuid) = 2 := by
    simp [List.count_cons, h12]
  omega

/-- Witness for C7: two distinct Anytime entries sharing uuid `a1`. -/
theorem c7_witness :
    2 ≤ ((augment_someday_tasks
        ⟨none, fun _ => none,
         some [⟨"a1", some "P1", none⟩, ⟨"a1", none, some "H1"⟩]⟩
        [] (some (["P1"], [("H1", "P1")]))).map Task.uuid).count "a1" :=
  c7_duplicate_candidates_both_appended _ [] (["P1"], [("H1", "P1")])
    ⟨"a1", some "P1", none⟩ ⟨"a1", none, some "H1"⟩ (List.Sublist.refl _)
    rfl (by decide) (by decide) (by decide) (by decide)

/-- C1 counterexample: `augment_someday_tasks` performs a fetch itself
(`things.anytime()`, someday.py line 84): with the task sequence and the
context fixed, two external-store states that differ only in the Anytime
bucket give different results. -/
theorem c1_counterexample :
    augment_someday_tasks ⟨none, fun _ => none, none⟩ [] (some (["P1"], [])) ≠
      augment_someday_tasks ⟨none, fun _ => none, some [⟨"a1", some "P1", none⟩]⟩ []
        (some (["P1"], [])) := by
  decide

/-- C1 amended: `filter_someday_tasks` with an explicit context performs no
fetch (its result is independent of the external store), while
`augment_someday_tasks` fetches the Anytime bucket itself: its result is a
function of the explicit inputs and that fetched snapshot only. -/
theorem c1_amended_purity (w₁ w₂ : World) (T : List Task) (c : Ctx) :
    filter_someday_tasks w₁ T (some c) = filter_someday_tasks w₂ T (some c) ∧
      (w₁.anytime = w₂.anytime →
        augment_someday_tasks w₁ T (some c) = augment_someday_tasks w₂ T (some c)) := by
  constructor
  · rfl
  · intro h
    simp [augment_someday_tasks, h]

/-- Witness for C1's amended statement: two stores agreeing on the Anytime
bucket but differing elsewhere. -/
theorem c1_witness :
    filter_someday_tasks ⟨none, fun _ => none, some [⟨"a1", some "P1", none⟩]⟩
        [⟨"t1", some "P1", none⟩] (some (["P1"], [])) =
      filter_someday_tasks ⟨some [⟨"Q"⟩], fun _ => some [⟨"H9"⟩], some [⟨"a1", some "P1", none⟩]⟩
        [⟨"t1", some "P1", none⟩] (some (["P1"], [])) ∧
    augment_someday_tasks ⟨none, fun _ => none, some [⟨"a1", some "P1", none⟩]⟩
        [⟨"t1", some "P1", none⟩] (some (["P1"], [])) =
      augment_someday_tasks ⟨some [⟨"Q"⟩], fun _ => some [⟨"H9"⟩], some [⟨"a1", some "P1", none⟩]⟩
        [⟨"t1", some "P1", none⟩] (some (["P1"], [])) :=
  ⟨(c1_amended_purity ⟨none, fun _ => none, some [⟨"a1", some "P1", none⟩]⟩
      ⟨some [⟨"Q"⟩], fun _ => some [⟨"H9"⟩], some [⟨"a1", some "P1", none⟩]⟩
      [⟨"t1", some "P1", none⟩] (["P1"], [])).1,
   (c1_amended_purity ⟨none, fun _ => none, some [⟨"a1", some "P1", none⟩]⟩
      ⟨some [⟨"Q"⟩], fun _ => some [⟨"H9"⟩], some [⟨"a1", some "P1", none⟩]⟩
      [⟨"t1", some "P1", none⟩] (["P1"], [])).2 rfl⟩

/-- C9: every context built by `get_someday_context` maps each key of
`heading_to_project` to a member of `someday_project_ids`; and when the
external source reports no Someday projects (a `None` or empty result),
the context is empty — the function is total, so no error is possible. -/
theorem c9_context_invariant (w : World) :
    (∀ k v, (k, v) ∈ (get_someday_context w).2 → v ∈ (get_someday_context w).1) ∧
      (w.projects_someday.getD [] = [] → get_someday_context w = ([], [])) := by
  constructor
  · intro k v hkv
    rw [get_someday_context_snd] at hkv
    rw [get_someday_context_fst]
    exact foldl_projects_snd_mem ((w.projects_someday.getD []).map Project.uuid).dedup w
      _ (fun pid hpid => hpid) [] (by simp) (k, v) hkv
  · intro h
    simp [get_someday_context, h]

/-- Witness for C9: the invariant at a world with one Someday project and
one heading, and the empty context at a world reporting no projects. -/
theorem c9_witness :
    ("P1" ∈ (get_someday_context ⟨some [⟨"P1"⟩], fun _ => some [⟨"H1"⟩], none⟩).1) ∧
      get_someday_context ⟨none, fun _ => none, none⟩ = ([], []) :=
  ⟨(c9_context_invariant ⟨some [⟨"P1"⟩], fun _ => some [⟨"H1"⟩], none⟩).1 "H1" "P1"
      (by decide),
   (c9_context_invariant ⟨none, fun _ => none, none⟩).2 rfl⟩

/-- C10 counterexample: the claim fails when the heading identifier itself
is the empty string (falsy in Python): the project field `""` is treated
as absent, but the heading rule also requires a truthy heading, so a task
whose heading is `""`, even when `""` is a key of `heading_to_project`,
is not classified as Someday. -/
theorem c10_counterexample :
    (("", "P1") ∈ ([("", "P1")] : List (String × String))) ∧
      is_in_someday_project ⟨"t1", some "", some ""⟩ ["P1"] [("", "P1")] = false := by
  decide

/-- C10 amended: a falsy project value (absent or the empty string) is
treated as no project identifier: for every context, a task whose project
field is falsy and whose heading field is a non-empty string that is a key
of `heading_to_project` is classified as in a Someday project via the
heading rule. -/
theorem c10_amended_falsy_project (ids : List String) (m : List (String × String))
    (t : Task) (h : String) (hp : t.project = none ∨ t.project = some "")
    (hh : t.heading = some h) (hne : h ≠ "") (hk : ∃ v, (h, v) ∈ m) :
    is_in_someday_project t ids m = true := by
  have hpt : strTruthy t.project = false := by
    rcases hp with hp | hp <;> rw [hp] <;> rfl
  have hht : strTruthy t.heading = true := by
    rw [hh]
    simpa [strTruthy] using hne
  have hkey : dictHasKey m (t.heading.getD "") = true := by
    rw [hh]
    exact (dictHasKey_iff m h).mpr hk
  unfold is_in_someday_project
  rw [hpt, hht, hkey]
  rfl

/-- Witness for C10's amended statement: an empty-string project with a
truthy heading that is a key of the map. -/
theorem c10_witness :
    is_in_someday_project ⟨"x", some "", some "H"⟩ [] [("H", "P")] = true :=
  c10_amended_falsy_project [] [("H", "P")] ⟨"x", some "", some "H"⟩ "H"
    (Or.inr rfl) rfl (by decide) ⟨"P", by decide⟩

end Things3
